import Mathlib

/-!
Verification of the TinyKit CDN worker (Cloudflare Worker over an R2 bucket)
against its natural-language specification.

The development shallowly embeds the request-handling logic of
`src/src/index.ts` (and its earlier revision `src/unnamed/part_000`):

* JavaScript strings are Lean `String`s; string primitives (`includes`,
  `split`, `trim`, `slice`, `toLowerCase`, `parseInt`) are re-implemented by
  structural recursion on the character list so that every definition
  evaluates inside the kernel.
* A header read `request.headers.get(h)` is `Option String` (`none` = header
  absent); JavaScript truthiness of a header value is `jsTruthy` (the empty
  string is falsy).
* External primitives that cannot be embedded bit-for-bit (base64/JSON
  decoding of JWT parts, HMAC-SHA256 verification, HTTP-date parsing and
  formatting) are abstracted as explicit function parameters or as fields of
  an already-decoded token view; all control flow of the worker around them
  is embedded faithfully.
-/

namespace TinyKit

/-! ## JavaScript string primitives, embedded structurally -/

/-- Boolean test `l` is a (character-wise) leading segment of `r`. -/
def isPrefOf : List Char → List Char → Bool
  | [], _ => true
  | _ :: _, [] => false
  | a :: as, b :: bs => a == b && isPrefOf as bs

/-- Boolean test: `pat` occurs as a contiguous sub-list of the second list.
Embeds the semantics of JavaScript `String.prototype.includes`. -/
def hasSubList (pat : List Char) : List Char → Bool
  | [] => isPrefOf pat []
  | a :: as => isPrefOf pat (a :: as) || hasSubList pat as

/-- JavaScript `s.includes(pat)`. -/
def jsIncludes (s pat : String) : Bool := hasSubList pat.data s.data

/-- JavaScript `s.startsWith(p)`. -/
def strHasPref (p s : String) : Bool := isPrefOf p.data s.data

/-- JavaScript `s.endsWith(p)`. -/
def strHasSuffix (p s : String) : Bool := isPrefOf p.data.reverse s.data.reverse

/-- JavaScript `s.slice(n)` for a non-negative `n` (also `substring(n)`). -/
def strDrop (s : String) (n : Nat) : String := String.mk (s.data.drop n)

/-- JavaScript `s.slice(0, -n)` for `0 < n ≤ s.length`. -/
def strDropRight (s : String) (n : Nat) : String :=
  String.mk (s.data.take (s.data.length - n))

/-- ASCII lower-casing, the fragment of `toLowerCase` the worker relies on
(extension strings and header names are ASCII). -/
def lowerStr (s : String) : String := String.mk (s.data.map Char.toLower)

/-- The whitespace class trimmed by JavaScript `trim` (ASCII fragment). -/
def isWSChar (c : Char) : Bool :=
  c == ' ' || c == '\t' || c == '\n' || c == '\r' || c == '\x0b' || c == '\x0c'

/-- JavaScript `s.trim()` on the character list. -/
def trimChars (l : List Char) : List Char :=
  ((l.dropWhile isWSChar).reverse.dropWhile isWSChar).reverse

/-- Split on a single-character separator, exactly as JavaScript
`s.split(c)`: `n` separators yield `n+1` (possibly empty) fields. -/
def splitChar (c : Char) : List Char → List (List Char)
  | [] => [[]]
  | a :: as =>
    match splitChar c as with
    | [] => [[]]
    | h :: t => if a == c then [] :: h :: t else (a :: h) :: t

/-- `allowlist.split(',').map(o => o.trim())`, as used by both origin
validators in the source. -/
def splitCommaTrim (s : String) : List String :=
  (splitChar ',' s.data).map (fun l => String.mk (trimChars l))

/-- Decimal digit value of a character, `none` otherwise. -/
def digitVal (c : Char) : Option Nat :=
  if 48 ≤ c.toNat && c.toNat ≤ 57 then some (c.toNat - 48) else none

/-- Hexadecimal digit value of a character, `none` otherwise. -/
def hexVal (c : Char) : Option Nat :=
  if 48 ≤ c.toNat && c.toNat ≤ 57 then some (c.toNat - 48)
  else if 97 ≤ c.toNat && c.toNat ≤ 102 then some (c.toNat - 87)
  else if 65 ≤ c.toNat && c.toNat ≤ 70 then some (c.toNat - 55)
  else none

/-- Longest leading run of valid digits under the digit reader `val`. -/
def collectDigits (val : Char → Option Nat) : List Char → List Nat
  | [] => []
  | c :: cs =>
    match val c with
    | some d => d :: collectDigits val cs
    | none => []

/-- Fold a digit list in the given base. -/
def foldDigits (base : Nat) (ds : List Nat) : Nat :=
  ds.foldl (fun a d => a * base + d) 0

/-- JavaScript `parseInt(s)` (no radix argument): trims, reads an optional
sign, a `0x`/`0X` hexadecimal prefix or a longest decimal-digit prefix.
`none` models the `NaN` result. -/
def jsParseInt (s : String) : Option Int :=
  let unsigned : List Char → Option Nat := fun l =>
    match l with
    | '0' :: 'x' :: rest =>
      let ds := collectDigits hexVal rest
      if ds.isEmpty then none else some (foldDigits 16 ds)
    | '0' :: 'X' :: rest =>
      let ds := collectDigits hexVal rest
      if ds.isEmpty then none else some (foldDigits 16 ds)
    | _ =>
      let ds := collectDigits digitVal l
      if ds.isEmpty then none else some (foldDigits 10 ds)
  match trimChars s.data with
  | '-' :: rest => (unsigned rest).map (fun n => -(n : Int))
  | '+' :: rest => (unsigned rest).map (fun n => (n : Int))
  | l => (unsigned l).map (fun n => (n : Int))

/-- JavaScript truthiness of a nullable header value: `null` and `""` are
falsy, every other string is truthy. -/
def jsTruthy : Option String → Bool
  | none => false
  | some s => s != ""

/-- The string content of a nullable header (used only under a `jsTruthy`
guard, where JavaScript dereferences the value). -/
def headerStr : Option String → String
  | none => ""
  | some s => s

/-- Comparison `a > b` on possibly-`NaN` numbers: any comparison against
`NaN` is false in JavaScript. -/
def jsGtOpt : Option Int → Option Int → Bool
  | some a, some b => decide (b < a)
  | _, _ => false

/-! ## MIME table and content-type resolution (`CONTENT_TYPES`,
`getContentType`, src/src/index.ts lines 15-50) -/

/-- The `CONTENT_TYPES` extension→MIME table of the source, verbatim. -/
def CONTENT_TYPES : List (String × String) :=
  [(".png", "image/png"), (".jpg", "image/jpeg"), (".jpeg", "image/jpeg"),
   (".gif", "image/gif"), (".webp", "image/webp"), (".svg", "image/svg+xml"),
   (".ico", "image/x-icon"),
   (".pdf", "application/pdf"), (".json", "application/json"),
   (".xml", "application/xml"),
   (".dmg", "application/x-apple-diskimage"), (".zip", "application/zip"),
   (".pkg", "application/x-newton-compatible-pkg"),
   (".mp4", "video/mp4"), (".webm", "video/webm"),
   (".woff", "font/woff"), (".woff2", "font/woff2"), (".ttf", "font/ttf"),
   (".otf", "font/otf")]

/-- The suffix of the character list from its last `'.'` (inclusive), when a
dot occurs at all. -/
def afterLastDot : List Char → Option (List Char)
  | [] => none
  | c :: cs =>
    match afterLastDot cs with
    | some r => some r
    | none => if c == '.' then some (c :: cs) else none

/-- `path.substring(path.lastIndexOf('.')).toLowerCase()`: JavaScript
`lastIndexOf` yields `-1` when no dot occurs and `substring(-1)` clamps to
`0`, so a dot-free path yields the whole (lower-cased) path. -/
def jsExtOf (s : String) : String :=
  match afterLastDot s.data with
  | some r => String.mk (r.map Char.toLower)
  | none => String.mk (s.data.map Char.toLower)

/-- `getContentType` of the source: table lookup with a generic-binary
fallback. -/
def getContentType (path : String) : String :=
  match CONTENT_TYPES.find? (fun p => p.1 == jsExtOf path) with
  | some p => p.2
  | none => "application/octet-stream"

/-! ## Origin validation for reads (`isOriginAllowed`,
src/src/index.ts lines 53-67) -/

/-- Embeds `isOriginAllowed(request, allowedOrigins)`; the two header reads
`Origin` and `Referer` are passed as nullable values. -/
def isOriginAllowed (origin referer : Option String) (allowedOrigins : String) : Bool :=
  if allowedOrigins == "*" then true
  else if !(jsTruthy origin) && !(jsTruthy referer) then true
  else
    if jsTruthy origin
        && (splitCommaTrim allowedOrigins).any (fun o => jsIncludes (headerStr origin) o) then
      true
    else if jsTruthy referer
        && (splitCommaTrim allowedOrigins).any (fun o => jsIncludes (headerStr referer) o) then
      true
    else false

/-! ## Cache classification (`getCacheConfig`, src/src/index.ts lines 70-96) -/

structure CacheConfig where
  cacheControl : String
  cacheTtl : Nat
deriving DecidableEq

/-- The alternatives of the regex `/\.(png|jpg|jpeg|gif|webp|svg|ico|woff|woff2|ttf|otf)$/i`. -/
def staticExtAlternatives : List String :=
  ["png", "jpg", "jpeg", "gif", "webp", "svg", "ico", "woff", "woff2", "ttf", "otf"]

/-- `path.match(/\.(png|...)$/i)` as a boolean: the path, lower-cased, ends
in a dot followed by one of the listed extensions. -/
def matchesStaticExt (path : String) : Bool :=
  staticExtAlternatives.any (fun e => strHasSuffix ("." ++ e) (lowerStr path))

/-- `getCacheConfig` of the source: downloads take the short tier, the
static image/font extensions the immutable tier, everything else the
one-day tier. -/
def getCacheConfig (path : String) : CacheConfig :=
  if jsIncludes path "/downloads/" then
    { cacheControl := "public, max-age=3600", cacheTtl := 3600 }
  else if matchesStaticExt path then
    { cacheControl := "public, max-age=31536000, immutable", cacheTtl := 31536000 }
  else
    { cacheControl := "public, max-age=86400", cacheTtl := 86400 }

/-! ## Upload-token verification (`parseJWTToken`, src/src/index.ts
lines 99-225)

Base64url/JSON decoding and the Web-Crypto HMAC verification cannot be
embedded bit-for-bit; a token string is therefore viewed through an abstract
`decode : String → TokenInput` that records, for the three dot-separated
parts, whether each decoding step of the source succeeds, the decoded
payload fields the source inspects, the decoded header fields, and the
outcome of `crypto.subtle.verify`. All checks and their source order are
embedded exactly. -/

/-- The payload fields of a decoded upload token that the worker inspects.
A `none` models a field that is missing or of the wrong dynamic type. -/
structure JWTPayload where
  appName : Option String
  exp : Option Int
  allowedPaths : Option (List String)
  maxFileSize : Option Int
  allowedExtensions : Option (List String)
deriving DecidableEq

/-- Abstract decoded view of a candidate token string: the structural facts
`parseJWTToken` branches on. -/
structure TokenInput where
  /-- `token.split('.').length === 3`. -/
  threeParts : Bool
  /-- `safeBase64Decode(parts[1])` succeeds (base64 and JSON valid). -/
  payloadDecodes : Bool
  payload : JWTPayload
  /-- `safeBase64Decode(parts[0])` succeeds. -/
  headerDecodes : Bool
  headerTyp : String
  headerAlg : String
  /-- decoding `parts[2]` as url-safe base64 succeeds. -/
  sigDecodes : Bool
  /-- outcome of `crypto.subtle.verify('HMAC', ...)` against the app secret. -/
  sigValid : Bool
deriving DecidableEq

inductive JWTResult where
  | ok (payload : JWTPayload)
  | err (msg : String)
deriving DecidableEq

/-- First-match lookup in the parsed `JWT_SECRETS` mapping,
`secrets[appName]`. -/
def lookupSecret (secrets : List (String × String)) (k : String) : Option String :=
  match secrets.find? (fun p => p.1 == k) with
  | some p => some p.2
  | none => none

/-- The body of `parseJWTToken(token, secrets)` after the non-empty-token
guard, over the decoded view of the token, at verification instant `now`
(seconds). The source checks, in order: three-part shape, payload decode,
`appName` presence (JS-truthy) and secret lookup (JS-truthy), `exp`
presence/truthiness with the expiry window, header decode and the
`typ`/`alg` allowlist, signature decode, HMAC verification. -/
def parseJWTDecoded (t : TokenInput) (secrets : List (String × String))
    (now : Int) : JWTResult :=
  if !t.threeParts then .err "Token must be in JWT format"
    else if !t.payloadDecodes then .err "Failed to parse JWT token"
    else
      match t.payload.appName with
      | none => .err "JWT payload must contain valid appName"
      | some a =>
        if a == "" then .err "JWT payload must contain valid appName"
        else
          match lookupSecret secrets a with
          | none => .err ("No JWT secret configured for app: " ++ a)
          | some sec =>
            if sec == "" then .err ("No JWT secret configured for app: " ++ a)
            else
              match t.payload.exp with
              | some e =>
                if e != 0 then
                  if e < now then .err "Token expired"
                  else if e > now + 365 * 24 * 60 * 60 then
                    .err "Token expiration too far in future"
                  else if !t.headerDecodes then .err "Failed to parse JWT token"
                  else if t.headerTyp != "JWT" || t.headerAlg != "HS256" then
                    .err "Invalid JWT format or algorithm (only HS256 supported)"
                  else if !t.sigDecodes then .err "Invalid signature encoding"
                  else if !t.sigValid then .err "Invalid JWT signature"
                  else .ok t.payload
                else .err "JWT payload must contain exp (expiration time)"
              | none => .err "JWT payload must contain exp (expiration time)"

/-- `parseJWTToken(token, secrets)`: the input-shape guard (`!token`)
followed by the checks over the decoded token view. -/
def parseJWTToken (token : String) (decode : String → TokenInput)
    (secrets : List (String × String)) (now : Int) : JWTResult :=
  if token == "" then .err "Invalid token format"
  else parseJWTDecoded (decode token) secrets now

/-! ## Upload request validation (`validateUploadRequest`,
src/src/index.ts lines 228-303) -/

/-- The environment bindings of the worker (`Env` of the source); each is an
optionally-set string. -/
structure Env where
  allowedOrigins : Option String
  maxFileSize : Option String
  uploadAllowedOrigins : Option String
  jwtSecrets : Option String
deriving DecidableEq

/-- An upload request, reduced to the parts `handleUpload` reads. `body` is
the byte sequence delivered by `request.arrayBuffer()`. -/
structure UploadRequest where
  pathname : String
  origin : Option String
  referer : Option String
  authHeader : Option String
  contentLength : Option String
  body : List Nat
  urlOrigin : String
deriving DecidableEq

inductive ValidationResult where
  | ok (tokenData : JWTPayload)
  | fail (error : String)
deriving DecidableEq

/-- The upload-origin gate at the top of `validateUploadRequest` (lines
234-250): active only when `UPLOAD_ALLOWED_ORIGINS` is set and JS-truthy;
yields the error it returns with, if any. -/
def uploadOriginGate (req : UploadRequest) (env : Env) : Option String :=
  match env.uploadAllowedOrigins with
  | none => none
  | some uao =>
    if uao == "" then none
    else if !(jsTruthy req.origin) && !(jsTruthy req.referer) then
      some "Origin verification failed"
    else if !((jsTruthy req.origin
          && (splitCommaTrim uao).any (fun o => jsIncludes (headerStr req.origin) o))
        || (jsTruthy req.referer
          && (splitCommaTrim uao).any (fun o => jsIncludes (headerStr req.referer) o))) then
      some "Origin not allowed for uploads"
    else none

/-- The post-verification re-check `tokenData.exp && tokenData.exp < now`
(line 283); `exp = 0` is JS-falsy. -/
def expRecheck (p : JWTPayload) (now : Int) : Bool :=
  match p.exp with
  | some e => e != 0 && decide (e < now)
  | none => false

/-- One `allowedPaths` pattern against the requested key (lines 289-295):
a literal `*` matches everything, a pattern ending in `/*` matches by the
prefix with only the trailing `*` sliced off, anything else must equal the
key exactly. -/
def patternMatches (key pattern : String) : Bool :=
  if pattern == "*" then true
  else if strHasSuffix "/*" pattern then strHasPref (strDropRight pattern 1) key
  else key == pattern

/-- `tokenData.allowedPaths.some(pattern => ...)`. -/
def pathAllowedFor (paths : List String) (key : String) : Bool :=
  paths.any (patternMatches key)

/-- `validateUploadRequest(request, env, key)`: origin gate, `Bearer` header
shape, `JWT_SECRETS` presence and parse (`parseSecrets` abstracts
`JSON.parse`), token verification, expiry re-check, and `allowedPaths`
authorization. -/
def validateUploadRequest (req : UploadRequest) (env : Env) (key : String)
    (decode : String → TokenInput)
    (parseSecrets : String → Option (List (String × String)))
    (now : Int) : ValidationResult :=
  match uploadOriginGate req env with
  | some e => .fail e
  | none =>
    match req.authHeader with
    | none => .fail "Missing or invalid authorization header"
    | some ah =>
      if !(strHasPref "Bearer " ah) then .fail "Missing or invalid authorization header"
      else
        match env.jwtSecrets with
        | none => .fail "JWT_SECRETS must be configured"
        | some js =>
          if js == "" then .fail "JWT_SECRETS must be configured"
          else
            match parseSecrets js with
            | none => .fail "Invalid JWT_SECRETS configuration"
            | some secrets =>
              match parseJWTToken (strDrop ah 7) decode secrets now with
              | .err e => .fail e
              | .ok payload =>
                if expRecheck payload now then .fail "Token expired"
                else
                  match payload.allowedPaths with
                  | none => .ok payload
                  | some paths =>
                    if paths.contains "*" then .ok payload
                    else if pathAllowedFor paths key then .ok payload
                    else .fail ("Path not allowed for token: " ++ key)

/-! ## File-path validation and the upload handler (`validateFilePath`,
`handleUpload`, src/src/index.ts lines 306-468) -/

/-- `validateFilePath(key)`: traversal patterns, extension allowlist
(the keys of `CONTENT_TYPES`), and the length bound. Yields the error it
fails with, `none` when valid. -/
def validateFilePath (key : String) : Option String :=
  if jsIncludes key ".." || jsIncludes key "//" || strHasPref "/" key then
    some "Invalid file path"
  else if !(CONTENT_TYPES.any (fun p => p.1 == jsExtOf key)) then
    some "File type not allowed"
  else if 500 < key.data.length then some "File path too long"
  else none

/-- `env.MAX_FILE_SIZE || '104857600'`: the raw string handed to `parseInt`
for the global size cap (the empty string is falsy). -/
def globalMaxStr (env : Env) : String :=
  match env.maxFileSize with
  | some s => if s == "" then "104857600" else s
  | none => "104857600"

/-- The effective `maxSize` of `handleUpload` (lines 365-368): the parsed
global cap, lowered by `Math.min` with a JS-truthy `tokenData.maxFileSize`.
`none` models `NaN` (an unparsable `MAX_FILE_SIZE`), which JavaScript's
`Math.min` propagates. -/
def maxSizeOf (env : Env) (tokenData : Option JWTPayload) : Option Int :=
  let m := jsParseInt (globalMaxStr env)
  match tokenData with
  | some p =>
    match p.maxFileSize with
    | some f => if f != 0 then m.map (fun mv => min mv f) else m
    | none => m
  | none => m

/-- String interpolation of a possibly-`NaN` number. -/
def showOptInt : Option Int → String
  | some v => toString v
  | none => "NaN"

/-- `', '.join` of `allowedExtensions` for the rejection message. -/
def joinComma : List String → String
  | [] => ""
  | [a] => a
  | a :: b :: rest => a ++ ", " ++ joinComma (b :: rest)

/-- `validation.tokenData?.appName || 'unknown'`. -/
def appOrUnknown (p : JWTPayload) : String :=
  match p.appName with
  | some a => if a == "" then "unknown" else a
  | none => "unknown"

/-- The upload handler's response, reduced to status, machine-readable code
and message on failure, and the data fields the success payload derives from
the request (`timestamp`, a fresh clock reading, is outside the model). -/
inductive UploadOutcome where
  | fail (status : Nat) (code : String) (error : String)
  | success (key : String) (size : Nat) (contentType : String) (url : String) (app : String)
deriving DecidableEq

/-- The machine-readable `code` field of an upload response. -/
def outcomeCode : UploadOutcome → Option String
  | .fail _ c _ => some c
  | .success _ _ _ _ _ => none

/-- The store write `CDN_BUCKET.put(key, fileData, {contentType})` issued on
success; the upload path never reads the bucket, so the write is data. -/
structure PutOp where
  key : String
  bytes : List Nat
  contentType : String
deriving DecidableEq

/-- `handleUpload(request, env)`: key extraction (`url.pathname.slice(9)`),
request validation, path validation, the two size checks (`Content-Length`
header first, then the received byte count), the token's
`allowedExtensions` gate, and the store write plus success payload. -/
def handleUpload (req : UploadRequest) (env : Env)
    (decode : String → TokenInput)
    (parseSecrets : String → Option (List (String × String)))
    (now : Int) : UploadOutcome × Option PutOp :=
  let key := strDrop req.pathname 9
  match validateUploadRequest req env key decode parseSecrets now with
  | .fail e => (.fail 401 "UNAUTHORIZED" e, none)
  | .ok tokenData =>
    match validateFilePath key with
    | some e => (.fail 400 "INVALID_PATH" e, none)
    | none =>
      let maxSize := maxSizeOf env (some tokenData)
      if jsTruthy req.contentLength
          && jsGtOpt (jsParseInt (headerStr req.contentLength)) maxSize then
        (.fail 413 "FILE_TOO_LARGE"
          ("File too large. Maximum size: " ++ showOptInt maxSize ++ " bytes"), none)
      else if jsGtOpt (some (req.body.length : Int)) maxSize then
        (.fail 413 "FILE_TOO_LARGE"
          ("File too large. Maximum size: " ++ showOptInt maxSize ++ " bytes"), none)
      else
        -- the extension gate is an early return in the source; its else
        -- branch and the absent-field case both reach the single
        -- put-and-respond tail, rendered here as the success value
        match tokenData.allowedExtensions with
        | some exts =>
          if !(exts.contains (jsExtOf key)) then
            (.fail 400 "EXTENSION_NOT_ALLOWED"
              ("File extension not allowed: " ++ jsExtOf key
                ++ ". Allowed: " ++ joinComma exts), none)
          else
            (.success key req.body.length (getContentType key)
               (req.urlOrigin ++ "/" ++ key) (appOrUnknown tokenData),
             some { key := key, bytes := req.body, contentType := getContentType key })
        | none =>
          (.success key req.body.length (getContentType key)
             (req.urlOrigin ++ "/" ++ key) (appOrUnknown tokenData),
           some { key := key, bytes := req.body, contentType := getContentType key })

/-! ## The read path of `fetch` (src/src/index.ts lines 515-678)

The edge cache and the R2 bucket are external collaborators; they enter as
an `Option CachedResponse` (the result of `cache.match`) and a
`Bucket := String → Option R2Object` (the result of `CDN_BUCKET.get`).
`parseDate` abstracts `new Date(string).getTime()` (`none` = invalid date,
`NaN`), `toUTC` abstracts `Date.prototype.toUTCString`. -/

/-- A response body: absent, stored bytes, or literal text. -/
inductive RBody where
  | noBody
  | bytes (l : List Nat)
  | text (s : String)
deriving DecidableEq

/-- A response held by the edge cache. -/
structure CachedResponse where
  status : Nat
  statusText : String
  body : RBody
  headers : List (String × String)
deriving DecidableEq

/-- An object returned by the blob store: `size`, `httpEtag`, the upload
timestamp in epoch milliseconds, optional stored content type, and bytes. -/
structure R2Object where
  size : Nat
  httpEtag : String
  uploadedMs : Int
  contentType : Option String
  body : List Nat
deriving DecidableEq

def Bucket : Type := String → Option R2Object

/-- A read request, reduced to the parts the read path consumes. -/
structure ReadRequest where
  method : String
  pathname : String
  origin : Option String
  referer : Option String
  ifNoneMatch : Option String
  ifModifiedSince : Option String
deriving DecidableEq

/-- The response the read path produces. -/
structure FetchResult where
  status : Nat
  statusText : String
  body : RBody
  headers : List (String × String)
deriving DecidableEq

inductive CondResult where
  | notModified (headers : List (String × String))
  | modified
deriving DecidableEq

/-- The conditional-request block (lines 568-601): the `If-None-Match`
guard requires a truthy header, a truthy `object.httpEtag` and strict string
equality; the `If-Modified-Since` guard requires a truthy header together
with a falsy `If-None-Match`, and compares the parsed date against the
object's upload time (an invalid date compares false). -/
def evalConditional (inm ims : Option String) (etag : String) (uploadedMs : Int)
    (key : String) (parseDate : String → Option Int) (toUTC : Int → String) : CondResult :=
  if jsTruthy inm && (etag != "") && (headerStr inm == etag) then
    .notModified [("ETag", etag),
                  ("Cache-Control", (getCacheConfig key).cacheControl),
                  ("Last-Modified", toUTC uploadedMs)]
  else if jsTruthy ims && !(jsTruthy inm) then
    match parseDate (headerStr ims) with
    | some t =>
      if uploadedMs ≤ t then
        .notModified [("Cache-Control", (getCacheConfig key).cacheControl),
                      ("Last-Modified", toUTC uploadedMs)]
      else .modified
    | none => .modified
  else .modified

/-- `Headers.set`: replace the value of an existing (case-insensitive)
header name, else append. -/
def setHeader (hs : List (String × String)) (k v : String) : List (String × String) :=
  if hs.any (fun p => lowerStr p.1 == lowerStr k) then
    hs.map (fun p => if lowerStr p.1 == lowerStr k then (p.1, v) else p)
  else hs ++ [(k, v)]

/-- `key.split('/').pop()`. -/
def lastSegment (key : String) : String :=
  match (splitChar '/' key.data).reverse with
  | [] => ""
  | l :: _ => String.mk l

/-- The header block a cache-miss 200 response is built with
(lines 603-662), in the source's `headers.set` order. -/
def buildReadHeaders (req : ReadRequest) (key : String) (obj : R2Object)
    (allowedOrigins : String) (toUTC : Int → String) : List (String × String) :=
  let h1 := setHeader [] "Content-Type"
      (match obj.contentType with
       | some ct => if ct == "" then getContentType key else ct
       | none => getContentType key)
  let h2 := setHeader h1 "Cache-Control" (getCacheConfig key).cacheControl
  let h3 :=
    if matchesStaticExt key then
      setHeader h2 "CDN-Cache-Control" "public, max-age=31536000, immutable"
    else if !(jsIncludes key "/downloads/") then
      setHeader h2 "CDN-Cache-Control" "public, max-age=86400"
    else h2
  let h4 :=
    if jsTruthy req.origin then
      setHeader (setHeader (setHeader h3 "Access-Control-Allow-Origin"
            (if allowedOrigins == "*" then "*" else headerStr req.origin))
          "Access-Control-Allow-Methods" "GET, HEAD, OPTIONS")
        "Access-Control-Max-Age" "86400"
    else h3
  let h5 := if obj.httpEtag != "" then setHeader h4 "ETag" obj.httpEtag else h4
  let h6 := setHeader h5 "Content-Length" (toString obj.size)
  let h7 := setHeader h6 "Last-Modified" (toUTC obj.uploadedMs)
  let h8 := setHeader h7 "X-Content-Type-Options" "nosniff"
  let h9 := setHeader h8 "X-Cache-Status" "MISS"
  if jsIncludes key "/downloads/" then
    setHeader h9 "Content-Disposition"
      ("attachment; filename=\"" ++ lastSegment key ++ "\"")
  else h9

/-- `env.ALLOWED_ORIGINS || '*'`. -/
def readAllowlist (env : Env) : String :=
  match env.allowedOrigins with
  | some s => if s == "" then "*" else s
  | none => "*"

/-- The GET/HEAD read flow of `fetch` after routing (lines 515-678): origin
gate, key extraction, edge-cache lookup (a hit is returned unchanged except
for the `X-Cache-Status: HIT` diagnostic), store lookup, the optional size
cap, the conditional-request block, and the full response. The asynchronous
`cache.put` of the built response is fire-and-forget and outside the
returned value. -/
def handleRead (req : ReadRequest) (env : Env) (cacheLookup : Option CachedResponse)
    (bucket : Bucket) (parseDate : String → Option Int) (toUTC : Int → String) : FetchResult :=
  let allowedOrigins := readAllowlist env
  if !(isOriginAllowed req.origin req.referer allowedOrigins) then
    { status := 403, statusText := "", body := .text "Forbidden: Invalid origin", headers := [] }
  else
    let key := strDrop req.pathname 1
    if key == "" then
      { status := 400, statusText := "",
        body := .text "Bad Request: No file path provided", headers := [] }
    else
      match cacheLookup with
      | some c =>
        { status := c.status, statusText := c.statusText, body := c.body,
          headers := setHeader c.headers "X-Cache-Status" "HIT" }
      | none =>
        match bucket key with
        | none => { status := 404, statusText := "", body := .text "Not Found", headers := [] }
        | some obj =>
          let maxSize := jsParseInt
            (match env.maxFileSize with
             | some s => if s == "" then "0" else s
             | none => "0")
          if (match maxSize with
              | some m => decide (0 < m) && decide (m < (obj.size : Int))
              | none => false) then
            { status := 413, statusText := "", body := .text "File Too Large", headers := [] }
          else
            match evalConditional req.ifNoneMatch req.ifModifiedSince obj.httpEtag
                obj.uploadedMs key parseDate toUTC with
            | .notModified hs =>
              { status := 304, statusText := "", body := .noBody, headers := hs }
            | .modified =>
              let headers := buildReadHeaders req key obj allowedOrigins toUTC
              if req.method == "HEAD" then
                { status := 200, statusText := "", body := .noBody, headers := headers }
              else
                { status := 200, statusText := "", body := .bytes obj.body, headers := headers }

example : jsIncludes "a/downloads/x.png" "/downloads/" = true := by decide
example : matchesStaticExt "a/b.PNG" = true := by decide
example : matchesStaticExt "a/b.txt" = false := by decide
example : getCacheConfig "a/b.png" =
    { cacheControl := "public, max-age=31536000, immutable", cacheTtl := 31536000 } := by decide
example : getContentType "a/img.PNG" = "image/png" := by rfl
example : getContentType "noext" = "application/octet-stream" := by rfl
example : jsParseInt "104857601" = some 104857601 := by rfl
example : jsParseInt " -42px" = some (-42) := by rfl
example : jsParseInt "abc" = none := by rfl
example : isOriginAllowed (some "https://evil.example") (some "https://good.example/p") "good.example" = true := by rfl
example : splitCommaTrim "a, b" = ["a", "b"] := by rfl
example :
    (handleUpload
      { pathname := "/upload/aapp1/img.png", origin := none, referer := none,
        authHeader := some "Bearer t", contentLength := none,
        body := [1, 2, 3], urlOrigin := "https://cdn.example" }
      { allowedOrigins := none, maxFileSize := none,
        uploadAllowedOrigins := none, jwtSecrets := some "cfg" }
      (fun _ =>
        { threeParts := true, payloadDecodes := true,
          payload := { appName := some "app1", exp := some 2000,
                       allowedPaths := some ["app1/*"], maxFileSize := none,
                       allowedExtensions := none },
          headerDecodes := true, headerTyp := "JWT", headerAlg := "HS256",
          sigDecodes := true, sigValid := true })
      (fun _ => some [("app1", "sec")]) 1000).1
    = .success "app1/img.png" 3 "image/png" "https://cdn.example/app1/img.png" "app1" := by rfl

/-! ## Helper lemmas -/

/-- Any `take`-segment of a list is one of its leading segments. -/
theorem isPrefOf_take (l : List Char) (n : Nat) : isPrefOf (l.take n) l = true := by
  induction l generalizing n with
  | nil => cases n <;> rfl
  | cons a as ih =>
    cases n with
    | zero => rfl
    | succ m => simp [List.take, isPrefOf, ih]

/-- Collapsing a two-test boolean `if` cascade into a disjunction. -/
theorem boolIfChainOr (a b : Bool) :
    (if a then true else if b then true else false) = (a || b) := by
  cases a <;> cases b <;> rfl

/-! ## C7: cache classification -/

/-- C7: `classify` is a pure function of the path. A path containing a
`/downloads/` segment yields the Download tier (`public, max-age=3600`,
ttl 3600) even when its extension is in the static image/font set; otherwise
an extension in `png,jpg,jpeg,gif,webp,svg,ico,woff,woff2,ttf,otf` yields
the Static tier (`public, max-age=31536000, immutable`, ttl 31536000); every
other path yields the Default tier (`public, max-age=86400`, ttl 86400). -/
theorem C7_theorem (p : String) :
    (jsIncludes p "/downloads/" = true →
      getCacheConfig p = { cacheControl := "public, max-age=3600", cacheTtl := 3600 })
  ∧ (jsIncludes p "/downloads/" = false →
      (["png", "jpg", "jpeg", "gif", "webp", "svg", "ico", "woff", "woff2", "ttf",
        "otf"].any (fun e => strHasSuffix ("." ++ e) (lowerStr p))) = true →
      getCacheConfig p
        = { cacheControl := "public, max-age=31536000, immutable", cacheTtl := 31536000 })
  ∧ (jsIncludes p "/downloads/" = false →
      (["png", "jpg", "jpeg", "gif", "webp", "svg", "ico", "woff", "woff2", "ttf",
        "otf"].any (fun e => strHasSuffix ("." ++ e) (lowerStr p))) = false →
      getCacheConfig p = { cacheControl := "public, max-age=86400", cacheTtl := 86400 }) := by
  refine ⟨fun h1 => ?_, fun h1 h2 => ?_, fun h1 h2 => ?_⟩
  · simp [getCacheConfig, h1]
  · simp [getCacheConfig, matchesStaticExt, staticExtAlternatives, h1, h2]
  · simp [getCacheConfig, matchesStaticExt, staticExtAlternatives, h1, h2]

/-- C7 witness: the three spec examples, through `C7_theorem`. -/
theorem C7_witness :
    getCacheConfig "a/downloads/x.png"
      = { cacheControl := "public, max-age=3600", cacheTtl := 3600 }
  ∧ getCacheConfig "a/b.png"
      = { cacheControl := "public, max-age=31536000, immutable", cacheTtl := 31536000 }
  ∧ getCacheConfig "a/b.txt"
      = { cacheControl := "public, max-age=86400", cacheTtl := 86400 } :=
  ⟨( C7_theorem "a/downloads/x.png").1 (by decide),
   ( C7_theorem "a/b.png").2.1 (by decide) (by decide),
   ( C7_theorem "a/b.txt").2.2 (by decide) (by decide)⟩

/-! ## C6: read-path origin allowlisting -/

/-- The claim's reading of the origin check: the `Referer` header is
consulted only when `Origin` is absent. Written from the claim's words, to
be compared with the source's `isOriginAllowed`. -/
def isOriginAllowedClaim (origin referer : Option String) (allowedOrigins : String) : Bool :=
  if allowedOrigins == "*" then true
  else if origin.isNone && referer.isNone then true
  else
    match origin with
    | some o => (splitCommaTrim allowedOrigins).any (fun e => jsIncludes o e)
    | none =>
      match referer with
      | some r => (splitCommaTrim allowedOrigins).any (fun e => jsIncludes r e)
      | none => false

/-- C6 counterexample: with allowlist `good.example`, an Origin of
`https://evil.example` (matching no entry) and a Referer of
`https://good.example/p`, the source allows the request, while the claim's
condition — Referer consulted only when Origin is absent — rejects it. -/
theorem C6_counterexample :
    isOriginAllowed (some "https://evil.example") (some "https://good.example/p")
      "good.example" = true
  ∧ isOriginAllowedClaim (some "https://evil.example") (some "https://good.example/p")
      "good.example" = false :=
  ⟨by rfl, by rfl⟩

/-- The amended condition: wildcard, or both headers absent/empty, or some
trimmed allowlist entry a substring of a non-empty Origin, or some entry a
substring of a non-empty Referer — the Referer disjunct applies even when
the Origin is present but unmatched. -/
def isOriginAllowedAmended (origin referer : Option String) (allowedOrigins : String) : Bool :=
  if allowedOrigins == "*" then true
  else if !(jsTruthy origin) && !(jsTruthy referer) then true
  else
    (jsTruthy origin
      && (splitCommaTrim allowedOrigins).any (fun e => jsIncludes (headerStr origin) e))
    || (jsTruthy referer
      && (splitCommaTrim allowedOrigins).any (fun e => jsIncludes (headerStr referer) e))

/-- C6 (amended): `isAllowed` returns true iff the allowlist is the
wildcard, or both Origin and Referer are absent (or empty, which JavaScript
truthiness treats as absent), or some comma-separated trimmed entry is a
substring of the Origin, or some entry is a substring of the Referer — the
Referer test is evaluated regardless of whether the Origin matched. -/
theorem C6_theorem (o r : Option String) (al : String) :
    isOriginAllowed o r al = isOriginAllowedAmended o r al := by
  unfold isOriginAllowed isOriginAllowedAmended
  split
  · rfl
  · split
    · rfl
    · rw [boolIfChainOr]

/-! ## C9: upload-path origin gate vs read-path behaviour -/

/-- C9: when an upload-origin allowlist is configured (set and non-empty)
and both `Origin` and `Referer` are absent, the upload is rejected as
`UNAUTHORIZED` with the origin-verification error — the opposite of the
read path, where a request with neither header is allowed under every
allowlist. -/
theorem C9_theorem (req : UploadRequest) (env : Env) (decode : String → TokenInput)
    (parseSecrets : String → Option (List (String × String))) (now : Int) (s : String)
    (h1 : env.uploadAllowedOrigins = some s) (h2 : (s == "") = false)
    (h3 : req.origin = none) (h4 : req.referer = none) :
    (handleUpload req env decode parseSecrets now).1
      = .fail 401 "UNAUTHORIZED" "Origin verification failed"
  ∧ (∀ al : String, isOriginAllowed none none al = true) := by
  constructor
  · simp [handleUpload, validateUploadRequest, uploadOriginGate, h1, h2, h3, h4, jsTruthy]
  · intro al
    unfold isOriginAllowed
    split
    · rfl
    · rfl

/-- C9 witness: a concrete headerless upload against a configured upload
allowlist, and the read-path check on the same allowlist. -/
theorem C9_witness :
    (handleUpload
      { pathname := "/upload/xa.png", origin := none, referer := none,
        authHeader := some "Bearer t", contentLength := none, body := [],
        urlOrigin := "https://c" }
      { allowedOrigins := none, maxFileSize := none,
        uploadAllowedOrigins := some "good.example", jwtSecrets := some "cfg" }
      (fun _ =>
        { threeParts := false, payloadDecodes := false,
          payload := { appName := none, exp := none, allowedPaths := none,
                       maxFileSize := none, allowedExtensions := none },
          headerDecodes := false, headerTyp := "", headerAlg := "",
          sigDecodes := false, sigValid := false })
      (fun _ => none) 0).1
      = .fail 401 "UNAUTHORIZED" "Origin verification failed"
  ∧ isOriginAllowed none none "good.example" = true := by
  have h := C9_theorem
    { pathname := "/upload/xa.png", origin := none, referer := none,
      authHeader := some "Bearer t", contentLength := none, body := [],
      urlOrigin := "https://c" }
    { allowedOrigins := none, maxFileSize := none,
      uploadAllowedOrigins := some "good.example", jwtSecrets := some "cfg" }
    (fun _ =>
      { threeParts := false, payloadDecodes := false,
        payload := { appName := none, exp := none, allowedPaths := none,
                     maxFileSize := none, allowedExtensions := none },
        headerDecodes := false, headerTyp := "", headerAlg := "",
        sigDecodes := false, sigValid := false })
    (fun _ => none) 0 "good.example" rfl rfl rfl rfl
  exact ⟨h.1, h.2 "good.example"⟩

/-! ## C10: edge-cache hits bypass store and conditional evaluation -/

/-- C10: when the edge cache yields a response, the read path returns that
response's status, status text and body with only the `X-Cache-Status: HIT`
diagnostic header added, for every bucket state and every
`If-None-Match`/`If-Modified-Since` header — in particular a request whose
`If-None-Match` equals the stored object's validator still receives the
cached status and body, not a 304 (the store and the conditional block are
never consulted). -/
theorem C10_theorem (req : ReadRequest) (env : Env) (bucket : Bucket)
    (parseDate : String → Option Int) (toUTC : Int → String) (c : CachedResponse)
    (h1 : isOriginAllowed req.origin req.referer (readAllowlist env) = true)
    (h2 : (strDrop req.pathname 1 == "") = false) :
    handleRead req env (some c) bucket parseDate toUTC
      = { status := c.status, statusText := c.statusText, body := c.body,
          headers := setHeader c.headers "X-Cache-Status" "HIT" } := by
  simp [handleRead, h1, h2]

/-- C10 witness: a cached 200 is returned as-is (plus the HIT header) even
though the request's `If-None-Match` equals the stored object's `httpEtag`. -/
theorem C10_witness :
    handleRead
      { method := "GET", pathname := "/a/b.png", origin := none, referer := none,
        ifNoneMatch := some "etag123", ifModifiedSince := none }
      { allowedOrigins := none, maxFileSize := none, uploadAllowedOrigins := none,
        jwtSecrets := none }
      (some { status := 200, statusText := "OK", body := .bytes [7],
              headers := [("ETag", "etag123")] })
      (fun k => if k == "a/b.png" then
          some { size := 1, httpEtag := "etag123", uploadedMs := 0,
                 contentType := some "image/png", body := [7] }
        else none)
      (fun _ => none) (fun _ => "LM")
      = { status := 200, statusText := "OK", body := .bytes [7],
          headers := [("ETag", "etag123"), ("X-Cache-Status", "HIT")] } := by
  have h := C10_theorem
    { method := "GET", pathname := "/a/b.png", origin := none, referer := none,
      ifNoneMatch := some "etag123", ifModifiedSince := none }
    { allowedOrigins := none, maxFileSize := none, uploadAllowedOrigins := none,
      jwtSecrets := none }
    (fun k => if k == "a/b.png" then
        some { size := 1, httpEtag := "etag123", uploadedMs := 0,
               contentType := some "image/png", body := [7] }
      else none)
    (fun _ => none) (fun _ => "LM")
    { status := 200, statusText := "OK", body := .bytes [7],
      headers := [("ETag", "etag123")] }
    (by rfl) (by rfl)
  exact h

/-! ## C5: conditional requests -/

/-- C5 counterexample: an `If-None-Match` header that is present but empty.
It is not byte-for-byte equal to the object's validator `"abc"`, and it is
not absent, so the claim's characterization yields a full 200; but the
source treats the empty header as falsy, evaluates `If-Modified-Since`
(here not later than the stored timestamp) and answers 304. -/
theorem C5_counterexample :
    (some "" : Option String) ≠ none
  ∧ ("" : String) ≠ "abc"
  ∧ evalConditional (some "") (some "Thu, 01 Jan 1970 00:00:05 GMT") "abc" 3 "a/b.txt"
      (fun _ => some 5) (fun _ => "LM")
      = .notModified [("Cache-Control", "public, max-age=86400"), ("Last-Modified", "LM")] :=
  ⟨by decide, by decide, by rfl⟩

/-- The claim amended for JavaScript truthiness: "present" means present and
non-empty. 304 iff the `If-None-Match` header is present, non-empty and
byte-for-byte equal to the object's non-empty validator (304 with ETag,
Cache-Control, Last-Modified), or — when `If-None-Match` is absent or
empty — `If-Modified-Since` is present, non-empty and parses to a timestamp
at or after the object's last-modified (304 with Cache-Control,
Last-Modified); otherwise a full response is built. -/
def evalConditionalAmended (inm ims : Option String) (etag : String) (uploadedMs : Int)
    (key : String) (parseDate : String → Option Int) (toUTC : Int → String) : CondResult :=
  if (match inm with
      | some s => s != "" && (etag != "") && (s == etag)
      | none => false) then
    .notModified [("ETag", etag),
                  ("Cache-Control", (getCacheConfig key).cacheControl),
                  ("Last-Modified", toUTC uploadedMs)]
  else if (match inm with | some s => s == "" | none => true) then
    match ims with
    | some r =>
      if r != "" then
        match parseDate r with
        | some t =>
          if uploadedMs ≤ t then
            .notModified [("Cache-Control", (getCacheConfig key).cacheControl),
                          ("Last-Modified", toUTC uploadedMs)]
          else .modified
        | none => .modified
      else .modified
    | none => .modified
  else .modified

/-- C5 (amended): the conditional-request block of the read path agrees
everywhere with the amended characterization — non-empty `If-None-Match`
takes sole precedence; an absent-or-empty `If-None-Match` falls through to
`If-Modified-Since`; everything else yields a full response. -/
theorem C5_theorem (inm ims : Option String) (etag : String) (uploadedMs : Int)
    (key : String) (parseDate : String → Option Int) (toUTC : Int → String) :
    evalConditional inm ims etag uploadedMs key parseDate toUTC
      = evalConditionalAmended inm ims etag uploadedMs key parseDate toUTC := by
  cases inm with
  | none =>
    cases ims with
    | none => rfl
    | some r =>
      by_cases hr : r = ""
      · subst hr; rfl
      · simp [evalConditional, evalConditionalAmended, jsTruthy, headerStr, hr]
  | some s =>
    by_cases hs : s = ""
    · subst hs
      cases ims with
      | none => rfl
      | some r =>
        by_cases hr : r = ""
        · subst hr; rfl
        · simp [evalConditional, evalConditionalAmended, jsTruthy, headerStr, hr]
    · by_cases he : etag = ""
      · subst he
        simp [evalConditional, evalConditionalAmended, jsTruthy, headerStr, hs]
      · by_cases hse : s = etag
        · subst hse
          simp [evalConditional, evalConditionalAmended, jsTruthy, headerStr, hs, he]
        · simp [evalConditional, evalConditionalAmended, jsTruthy, headerStr, hs, he, hse]

/-! ## C4: expiry checking during token verification -/

/-- C4 counterexample: a payload with `exp = 0` — present, numeric and in
the past relative to `now = 1` — is rejected with the missing-`exp` error,
not with the expiry error, because `0` is JS-falsy in the guard
`payload.exp && typeof payload.exp === 'number'`. -/
theorem C4_counterexample :
    ((0 : Int) < 1)
  ∧ parseJWTToken "tok"
      (fun _ =>
        { threeParts := true, payloadDecodes := true,
          payload := { appName := some "app1", exp := some 0, allowedPaths := none,
                       maxFileSize := none, allowedExtensions := none },
          headerDecodes := true, headerTyp := "JWT", headerAlg := "HS256",
          sigDecodes := true, sigValid := true })
      [("app1", "s3")] 1
      = .err "JWT payload must contain exp (expiration time)"
  ∧ (JWTResult.err "JWT payload must contain exp (expiration time)"
      ≠ JWTResult.err "Token expired") :=
  ⟨by decide, by rfl, by decide⟩

/-- C4 (amended): once a token reaches the expiry check (decodable, valid
truthy `appName`, configured non-empty secret), a present, numeric, nonzero
`exp < now` fails with the expiry error — for every header and signature
state, so in particular even when the signature is valid, expiry being
checked before the signature; a nonzero `exp > now + 365 days` fails with
the too-far-future error; an absent (or zero, JS-falsy) `exp` fails with the
missing-`exp` error. -/
theorem C4_theorem (tok : String) (decode : String → TokenInput)
    (secrets : List (String × String)) (now : Int) (t : TokenInput) (a sec : String)
    (htok : (tok == "") = false) (hdec : decode tok = t)
    (h3 : t.threeParts = true) (hpd : t.payloadDecodes = true)
    (ha : t.payload.appName = some a) (ha2 : (a == "") = false)
    (hs : lookupSecret secrets a = some sec) (hs2 : (sec == "") = false) :
    (∀ e : Int, t.payload.exp = some e → (e == 0) = false → e < now →
      parseJWTToken tok decode secrets now = .err "Token expired")
  ∧ (∀ e : Int, t.payload.exp = some e → (e == 0) = false → ¬ e < now →
      now + 365 * 24 * 60 * 60 < e →
      parseJWTToken tok decode secrets now = .err "Token expiration too far in future")
  ∧ (t.payload.exp = none →
      parseJWTToken tok decode secrets now
        = .err "JWT payload must contain exp (expiration time)") := by
  refine ⟨fun e he he0 hlt => ?_, fun e he he0 hnlt hgt => ?_, fun he => ?_⟩
  · have he0' : ¬ e = 0 := by simpa using he0
    simp [parseJWTToken, parseJWTDecoded, htok, hdec, h3, hpd, ha, ha2, hs, hs2,
      he, he0', hlt]
  · have he0' : ¬ e = 0 := by simpa using he0
    have hgt' : now + 31536000 < e := by linarith
    simp [parseJWTToken, parseJWTDecoded, htok, hdec, h3, hpd, ha, ha2, hs, hs2,
      he, he0', hnlt, hgt']
  · simp [parseJWTToken, parseJWTDecoded, htok, hdec, h3, hpd, ha, ha2, hs, hs2, he]

/-- C4 witness: a token with valid signature, valid header, configured
secret and `exp = 10` is rejected as expired at `now = 100`. -/
theorem C4_witness :
    parseJWTToken "a.b.c"
      (fun _ =>
        { threeParts := true, payloadDecodes := true,
          payload := { appName := some "app1", exp := some 10, allowedPaths := none,
                       maxFileSize := none, allowedExtensions := none },
          headerDecodes := true, headerTyp := "JWT", headerAlg := "HS256",
          sigDecodes := true, sigValid := true })
      [("app1", "sec")] 100
      = .err "Token expired" :=
  ( C4_theorem "a.b.c"
    (fun _ =>
      { threeParts := true, payloadDecodes := true,
        payload := { appName := some "app1", exp := some 10, allowedPaths := none,
                     maxFileSize := none, allowedExtensions := none },
        headerDecodes := true, headerTyp := "JWT", headerAlg := "HS256",
        sigDecodes := true, sigValid := true })
    [("app1", "sec")] 100
    { threeParts := true, payloadDecodes := true,
      payload := { appName := some "app1", exp := some 10, allowedPaths := none,
                   maxFileSize := none, allowedExtensions := none },
      headerDecodes := true, headerTyp := "JWT", headerAlg := "HS256",
      sigDecodes := true, sigValid := true }
    "app1" "sec" rfl rfl rfl rfl rfl rfl rfl rfl).1 10 rfl rfl (by decide)

/-! ## C1: path validation and its error code -/

/-- C1 counterexample: an upload whose key contains `..` but whose request
carries no Authorization header is rejected with code `UNAUTHORIZED`, not
`INVALID_PATH` — request validation runs before path validation. -/
theorem C1_counterexample :
    jsIncludes (strDrop "/upload/xa/../b.png" 9) ".." = true
  ∧ (handleUpload
      { pathname := "/upload/xa/../b.png", origin := none, referer := none,
        authHeader := none, contentLength := none, body := [],
        urlOrigin := "https://c" }
      { allowedOrigins := none, maxFileSize := none, uploadAllowedOrigins := none,
        jwtSecrets := some "cfg" }
      (fun _ =>
        { threeParts := false, payloadDecodes := false,
          payload := { appName := none, exp := none, allowedPaths := none,
                       maxFileSize := none, allowedExtensions := none },
          headerDecodes := false, headerTyp := "", headerAlg := "",
          sigDecodes := false, sigValid := false })
      (fun _ => none) 0).1
      = .fail 401 "UNAUTHORIZED" "Missing or invalid authorization header"
  ∧ outcomeCode (.fail 401 "UNAUTHORIZED" "Missing or invalid authorization header")
      ≠ some "INVALID_PATH" :=
  ⟨by decide, by rfl, by decide⟩

/-- C1 (amended): for every upload request whose key (the pathname after
`slice(9)`) contains `..` or `//` or begins with `/`, the upload never
succeeds; when request validation (origin gate plus token) succeeds it is
rejected with `INVALID_PATH`, and when request validation fails it is
rejected with `UNAUTHORIZED` carrying the validation error — authorization
is checked before the path. -/
theorem C1_theorem (req : UploadRequest) (env : Env) (decode : String → TokenInput)
    (parseSecrets : String → Option (List (String × String))) (now : Int)
    (hkey : (jsIncludes (strDrop req.pathname 9) ".."
        || jsIncludes (strDrop req.pathname 9) "//"
        || strHasPref "/" (strDrop req.pathname 9)) = true) :
    (∀ (k : String) (s : Nat) (ct u a : String),
      (handleUpload req env decode parseSecrets now).1 ≠ .success k s ct u a)
  ∧ (∀ td : JWTPayload,
      validateUploadRequest req env (strDrop req.pathname 9) decode parseSecrets now
        = .ok td →
      (handleUpload req env decode parseSecrets now).1
        = .fail 400 "INVALID_PATH" "Invalid file path")
  ∧ (∀ msg : String,
      validateUploadRequest req env (strDrop req.pathname 9) decode parseSecrets now
        = .fail msg →
      (handleUpload req env decode parseSecrets now).1
        = .fail 401 "UNAUTHORIZED" msg) := by
  have hvfp : validateFilePath (strDrop req.pathname 9) = some "Invalid file path" := by
    unfold validateFilePath
    simp only [hkey, if_true]
  refine ⟨?_, ?_, ?_⟩
  · intro k s ct u a
    cases hv : validateUploadRequest req env (strDrop req.pathname 9) decode parseSecrets now with
    | fail e => simp [handleUpload, hv]
    | ok td => simp [handleUpload, hv, hvfp]
  · intro td hv
    simp [handleUpload, hv, hvfp]
  · intro msg hv
    simp [handleUpload, hv]

/-- C1 witness: the same traversal key with a fully valid token is rejected
with `INVALID_PATH`. -/
theorem C1_witness :
    (handleUpload
      { pathname := "/upload/xa/../b.png", origin := none, referer := none,
        authHeader := some "Bearer t", contentLength := none, body := [],
        urlOrigin := "https://c" }
      { allowedOrigins := none, maxFileSize := none, uploadAllowedOrigins := none,
        jwtSecrets := some "cfg" }
      (fun _ =>
        { threeParts := true, payloadDecodes := true,
          payload := { appName := some "app1", exp := some 2000, allowedPaths := none,
                       maxFileSize := none, allowedExtensions := none },
          headerDecodes := true, headerTyp := "JWT", headerAlg := "HS256",
          sigDecodes := true, sigValid := true })
      (fun _ => some [("app1", "sec")]) 1000).1
      = .fail 400 "INVALID_PATH" "Invalid file path" :=
  (C1_theorem
    { pathname := "/upload/xa/../b.png", origin := none, referer := none,
      authHeader := some "Bearer t", contentLength := none, body := [],
      urlOrigin := "https://c" }
    { allowedOrigins := none, maxFileSize := none, uploadAllowedOrigins := none,
      jwtSecrets := some "cfg" }
    (fun _ =>
      { threeParts := true, payloadDecodes := true,
        payload := { appName := some "app1", exp := some 2000, allowedPaths := none,
                     maxFileSize := none, allowedExtensions := none },
        headerDecodes := true, headerTyp := "JWT", headerAlg := "HS256",
        sigDecodes := true, sigValid := true })
    (fun _ => some [("app1", "sec")]) 1000 (by decide)).2.1
    { appName := some "app1", exp := some 2000, allowedPaths := none,
      maxFileSize := none, allowedExtensions := none } rfl

/-! ## C2: the effective maximum upload size -/

/-- C2 counterexample: with neither `MAX_FILE_SIZE` nor a token
`maxFileSize` configured, the effective cap is the hard-coded default
104857600 rather than "no limit": a valid upload declaring
`Content-Length: 104857601` is rejected with `FILE_TOO_LARGE`. -/
theorem C2_counterexample :
    maxSizeOf
      { allowedOrigins := none, maxFileSize := none, uploadAllowedOrigins := none,
        jwtSecrets := some "cfg" }
      (some { appName := some "app1", exp := some 2000, allowedPaths := none,
              maxFileSize := none, allowedExtensions := none })
      = some 104857600
  ∧ (handleUpload
      { pathname := "/upload/aapp1/img.png", origin := none, referer := none,
        authHeader := some "Bearer t", contentLength := some "104857601",
        body := [], urlOrigin := "https://c" }
      { allowedOrigins := none, maxFileSize := none, uploadAllowedOrigins := none,
        jwtSecrets := some "cfg" }
      (fun _ =>
        { threeParts := true, payloadDecodes := true,
          payload := { appName := some "app1", exp := some 2000, allowedPaths := none,
                       maxFileSize := none, allowedExtensions := none },
          headerDecodes := true, headerTyp := "JWT", headerAlg := "HS256",
          sigDecodes := true, sigValid := true })
      (fun _ => some [("app1", "sec")]) 1000).1
      = .fail 413 "FILE_TOO_LARGE" "File too large. Maximum size: 104857600 bytes" :=
  ⟨by rfl, by rfl⟩

/-- C2 (amended): the effective maximum equals
`min(globalMaxFileSize, claims.maxFileSize)` when both are configured (the
token field nonzero); equals the global cap when only it is configured;
equals `min(104857600, claims.maxFileSize)` when only the token field is
configured (the global cap defaults to 104857600, it is never absent); and
equals 104857600 when neither is configured. -/
theorem C2_theorem (oa uo js : Option String) (s : String) (g : Int)
    (td : JWTPayload) (c : Int)
    (hs : (s == "") = false) (hg : jsParseInt s = some g)
    (hc : td.maxFileSize = some c) (hc0 : (c == 0) = false) :
    maxSizeOf { allowedOrigins := oa, maxFileSize := some s, uploadAllowedOrigins := uo,
                jwtSecrets := js } (some td) = some (min g c)
  ∧ (∀ td2 : JWTPayload, td2.maxFileSize = none →
      maxSizeOf { allowedOrigins := oa, maxFileSize := some s, uploadAllowedOrigins := uo,
                  jwtSecrets := js } (some td2) = some g)
  ∧ maxSizeOf { allowedOrigins := oa, maxFileSize := none, uploadAllowedOrigins := uo,
                jwtSecrets := js } (some td) = some (min 104857600 c)
  ∧ (∀ td2 : JWTPayload, td2.maxFileSize = none →
      maxSizeOf { allowedOrigins := oa, maxFileSize := none, uploadAllowedOrigins := uo,
                  jwtSecrets := js } (some td2) = some 104857600) := by
  have hc0' : ¬ c = 0 := by simpa using hc0
  refine ⟨?_, ?_, ?_, ?_⟩
  · simp [maxSizeOf, globalMaxStr, hs, hg, hc, hc0']
  · intro td2 h2
    simp [maxSizeOf, globalMaxStr, hs, hg, h2]
  · simp [maxSizeOf, globalMaxStr, hc, hc0']
    exact ⟨104857600, rfl, rfl⟩
  · intro td2 h2
    simp [maxSizeOf, globalMaxStr, h2]
    rfl

/-- C2 witness: both caps configured (global `"1000"`, token 500) yield
`min 1000 500`; global alone yields 1000. -/
theorem C2_witness :
    maxSizeOf
      { allowedOrigins := none, maxFileSize := some "1000", uploadAllowedOrigins := none,
        jwtSecrets := none }
      (some { appName := none, exp := none, allowedPaths := none,
              maxFileSize := some 500, allowedExtensions := none })
      = some (min 1000 500)
  ∧ maxSizeOf
      { allowedOrigins := none, maxFileSize := some "1000", uploadAllowedOrigins := none,
        jwtSecrets := none }
      (some { appName := none, exp := none, allowedPaths := none,
              maxFileSize := none, allowedExtensions := none })
      = some 1000 :=
  ⟨(C2_theorem none none none "1000" 1000
      { appName := none, exp := none, allowedPaths := none,
        maxFileSize := some 500, allowedExtensions := none }
      500 rfl rfl rfl rfl).1,
   (C2_theorem none none none "1000" 1000
      { appName := none, exp := none, allowedPaths := none,
        maxFileSize := some 500, allowedExtensions := none }
      500 rfl rfl rfl rfl).2.1
     { appName := none, exp := none, allowedPaths := none,
       maxFileSize := none, allowedExtensions := none } rfl⟩

/-! ## C8: idempotence of the success payload -/

/-- Inversion of a successful upload: the reported key, size and
content-type are computed from the request alone (the key is the
pathname after `slice(9)`, the size is the received byte count, the
content-type is resolved from the key), independent of the verification
instant and of any store state — the upload path never reads the bucket. -/
theorem handleUpload_success_fields (req : UploadRequest) (env : Env)
    (decode : String → TokenInput)
    (parseSecrets : String → Option (List (String × String)))
    (now : Int) (k : String) (s : Nat) (ct u a : String)
    (h : (handleUpload req env decode parseSecrets now).1 = .success k s ct u a) :
    k = strDrop req.pathname 9 ∧ s = req.body.length
      ∧ ct = getContentType (strDrop req.pathname 9) := by
  unfold handleUpload at h
  simp only [] at h
  repeat' split at h
  all_goals simp at h
  all_goals exact ⟨h.1.symm, h.2.1.symm, h.2.2.1.symm⟩

/-- C8: two identical upload requests — same key, bytes and token — that
both succeed (at any two verification instants at which the token is
accepted) report equal `key`, `size` and `contentType` fields in their
success payloads. -/
theorem C8_theorem (req : UploadRequest) (env : Env) (decode : String → TokenInput)
    (parseSecrets : String → Option (List (String × String))) (t1 t2 : Int)
    (k1 k2 : String) (s1 s2 : Nat) (ct1 ct2 u1 u2 a1 a2 : String)
    (h1 : (handleUpload req env decode parseSecrets t1).1 = .success k1 s1 ct1 u1 a1)
    (h2 : (handleUpload req env decode parseSecrets t2).1 = .success k2 s2 ct2 u2 a2) :
    k1 = k2 ∧ s1 = s2 ∧ ct1 = ct2 := by
  obtain ⟨e1, e2, e3⟩ := handleUpload_success_fields req env decode parseSecrets t1
    k1 s1 ct1 u1 a1 h1
  obtain ⟨f1, f2, f3⟩ := handleUpload_success_fields req env decode parseSecrets t2
    k2 s2 ct2 u2 a2 h2
  exact ⟨e1.trans f1.symm, e2.trans f2.symm, e3.trans f3.symm⟩

/-- C8 witness: the same upload performed at instants 500 and 600 with a
token valid at both reports identical key, size and content-type. -/
theorem C8_witness :
    ("app1/img.png" : String) = "app1/img.png"
  ∧ (3 : Nat) = 3
  ∧ ("image/png" : String) = "image/png" :=
  C8_theorem
    { pathname := "/upload/aapp1/img.png", origin := none, referer := none,
      authHeader := some "Bearer t", contentLength := none,
      body := [1, 2, 3], urlOrigin := "https://cdn.example" }
    { allowedOrigins := none, maxFileSize := none,
      uploadAllowedOrigins := none, jwtSecrets := some "cfg" }
    (fun _ =>
      { threeParts := true, payloadDecodes := true,
        payload := { appName := some "app1", exp := some 2000,
                     allowedPaths := some ["app1/*"], maxFileSize := none,
                     allowedExtensions := none },
        headerDecodes := true, headerTyp := "JWT", headerAlg := "HS256",
        sigDecodes := true, sigValid := true })
    (fun _ => some [("app1", "sec")]) 500 600
    "app1/img.png" "app1/img.png" 3 3 "image/png" "image/png"
    "https://cdn.example/app1/img.png" "https://cdn.example/app1/img.png"
    "app1" "app1" rfl rfl

/-! ## C3: `allowedPaths` authorization -/

/-- The claim's matching condition for one entry: exact equality with the
key, or an entry ending in `/*` whose prefix with the trailing `*` stripped
is a literal prefix of the key. -/
def claimPathMatch (paths : List String) (key : String) : Bool :=
  paths.any (fun p =>
    key == p || (strHasSuffix "/*" p && strHasPref (strDropRight p 1) key))

/-- For a non-wildcard entry, the source's `patternMatches` coincides with
the claim's disjunction. (When an entry ending in `/*` equals the key, its
stripped prefix is a leading segment of the key, so both sides agree.) -/
theorem patternMatches_claim (key p : String) (hp : (p == "*") = false) :
    patternMatches key p
      = (key == p || (strHasSuffix "/*" p && strHasPref (strDropRight p 1) key)) := by
  unfold patternMatches
  simp only [hp, Bool.false_eq_true, if_false]
  by_cases hsfx : strHasSuffix "/*" p = true
  · simp only [hsfx, if_true, Bool.true_and]
    by_cases hkp : key = p
    · subst hkp
      have hpre : strHasPref (strDropRight key 1) key = true := by
        unfold strHasPref strDropRight
        exact isPrefOf_take key.data (key.data.length - 1)
      simp [hpre]
    · have : (key == p) = false := by simpa using hkp
      simp [this]
  · have hsfx' : strHasSuffix "/*" p = false := by
      cases hx : strHasSuffix "/*" p
      · rfl
      · exact absurd hx hsfx
    simp [hsfx']

/-- Over a wildcard-free list, `some(pattern => ...)` of the source equals
the claim's any-of-entries condition. -/
theorem pathAllowedFor_claim (paths : List String) (key : String)
    (hstar : ∀ p ∈ paths, (p == "*") = false) :
    pathAllowedFor paths key = claimPathMatch paths key := by
  unfold pathAllowedFor claimPathMatch
  induction paths with
  | nil => rfl
  | cons p rest ih =>
    simp only [List.any_cons]
    rw [patternMatches_claim key p (hstar p (by simp)),
        ih (fun q hq => hstar q (by simp [hq]))]

set_option maxHeartbeats 1000000 in
/-- A decoded token accepted at instant `now` cannot trip the dispatcher's
expiry re-check at the same instant: verification already required a truthy
`exp` not in the past. -/
theorem parseJWTDecoded_ok_not_expired (t : TokenInput)
    (secrets : List (String × String)) (now : Int) (td : JWTPayload)
    (h : parseJWTDecoded t secrets now = .ok td) :
    expRecheck td now = false := by
  unfold parseJWTDecoded at h
  repeat' split at h
  all_goals try simp at h
  all_goals subst h
  all_goals simp_all [expRecheck]

/-- The same fact through `parseJWTToken`. -/
theorem parseJWTToken_ok_not_expired (token : String) (decode : String → TokenInput)
    (secrets : List (String × String)) (now : Int) (td : JWTPayload)
    (h : parseJWTToken token decode secrets now = .ok td) :
    expRecheck td now = false := by
  unfold parseJWTToken at h
  split at h
  · simp at h
  · exact parseJWTDecoded_ok_not_expired (decode token) secrets now td h

/-- C3: for a request that reaches path authorization with a verified token
whose `allowedPaths` is present and wildcard-free, the upload for key `k` is
authorized iff some entry equals `k` exactly or some entry ends in `/*` and
its prefix with the trailing `*` stripped is a literal prefix of `k`;
otherwise validation fails with the path-not-allowed error. -/
theorem C3_theorem (req : UploadRequest) (env : Env) (key : String)
    (decode : String → TokenInput)
    (parseSecrets : String → Option (List (String × String))) (now : Int)
    (ah js : String) (secrets : List (String × String)) (td : JWTPayload)
    (paths : List String)
    (hog : uploadOriginGate req env = none)
    (hah : req.authHeader = some ah) (hbr : strHasPref "Bearer " ah = true)
    (hjs : env.jwtSecrets = some js) (hjs2 : (js == "") = false)
    (hps : parseSecrets js = some secrets)
    (htok : parseJWTToken (strDrop ah 7) decode secrets now = .ok td)
    (hpaths : td.allowedPaths = some paths)
    (hstar : paths.contains "*" = false) :
    (validateUploadRequest req env key decode parseSecrets now = .ok td
      ↔ claimPathMatch paths key = true)
  ∧ (claimPathMatch paths key = false →
      validateUploadRequest req env key decode parseSecrets now
        = .fail ("Path not allowed for token: " ++ key)) := by
  have hexp : expRecheck td now = false :=
    parseJWTToken_ok_not_expired (strDrop ah 7) decode secrets now td htok
  have hstar' : ∀ q ∈ paths, (q == "*") = false := by
    intro q hq
    have h1 : ¬ ("*" == q) = true := by
      rw [List.contains_eq_any_beq, List.any_eq_false] at hstar
      exact hstar q hq
    cases hqe : q == "*"
    · rfl
    · exfalso
      apply h1
      have hq' : q = "*" := by simpa using hqe
      subst hq'
      simp
  have hpa : pathAllowedFor paths key = claimPathMatch paths key :=
    pathAllowedFor_claim paths key hstar'
  have hnotmem : "*" ∉ paths := by
    intro hm
    have := hstar' "*" hm
    simp at this
  have hvr : validateUploadRequest req env key decode parseSecrets now
      = (if claimPathMatch paths key then .ok td
         else .fail ("Path not allowed for token: " ++ key)) := by
    unfold validateUploadRequest
    simp [hog, hah, hbr, hjs, hjs2, hps, htok, hpaths, hexp, hstar, hpa, hnotmem]
  rw [hvr]
  constructor
  · cases hcm : claimPathMatch paths key <;> simp [hcm]
  · intro hcm
    simp [hcm]

/-- C3 witness: the spec's end-to-end example — a token with
`allowedPaths = ["app1/*"]` authorizes key `app1/img.png` and is rejected
for key `app2/img.png` with the path-not-allowed error. -/
theorem C3_witness :
    validateUploadRequest
      { pathname := "/upload/aapp1/img.png", origin := none, referer := none,
        authHeader := some "Bearer t", contentLength := none, body := [],
        urlOrigin := "https://c" }
      { allowedOrigins := none, maxFileSize := none, uploadAllowedOrigins := none,
        jwtSecrets := some "cfg" }
      "app1/img.png"
      (fun _ =>
        { threeParts := true, payloadDecodes := true,
          payload := { appName := some "app1", exp := some 2000,
                       allowedPaths := some ["app1/*"], maxFileSize := none,
                       allowedExtensions := none },
          headerDecodes := true, headerTyp := "JWT", headerAlg := "HS256",
          sigDecodes := true, sigValid := true })
      (fun _ => some [("app1", "sec")]) 1000
      = .ok { appName := some "app1", exp := some 2000,
              allowedPaths := some ["app1/*"], maxFileSize := none,
              allowedExtensions := none }
  ∧ validateUploadRequest
      { pathname := "/upload/aapp1/img.png", origin := none, referer := none,
        authHeader := some "Bearer t", contentLength := none, body := [],
        urlOrigin := "https://c" }
      { allowedOrigins := none, maxFileSize := none, uploadAllowedOrigins := none,
        jwtSecrets := some "cfg" }
      "app2/img.png"
      (fun _ =>
        { threeParts := true, payloadDecodes := true,
          payload := { appName := some "app1", exp := some 2000,
                       allowedPaths := some ["app1/*"], maxFileSize := none,
                       allowedExtensions := none },
          headerDecodes := true, headerTyp := "JWT", headerAlg := "HS256",
          sigDecodes := true, sigValid := true })
      (fun _ => some [("app1", "sec")]) 1000
      = .fail "Path not allowed for token: app2/img.png" :=
  ⟨((C3_theorem
      { pathname := "/upload/aapp1/img.png", origin := none, referer := none,
        authHeader := some "Bearer t", contentLength := none, body := [],
        urlOrigin := "https://c" }
      { allowedOrigins := none, maxFileSize := none, uploadAllowedOrigins := none,
        jwtSecrets := some "cfg" }
      "app1/img.png"
      (fun _ =>
        { threeParts := true, payloadDecodes := true,
          payload := { appName := some "app1", exp := some 2000,
                       allowedPaths := some ["app1/*"], maxFileSize := none,
                       allowedExtensions := none },
          headerDecodes := true, headerTyp := "JWT", headerAlg := "HS256",
          sigDecodes := true, sigValid := true })
      (fun _ => some [("app1", "sec")]) 1000
      "Bearer t" "cfg" [("app1", "sec")]
      { appName := some "app1", exp := some 2000,
        allowedPaths := some ["app1/*"], maxFileSize := none,
        allowedExtensions := none }
      ["app1/*"]
      rfl rfl rfl rfl rfl rfl rfl rfl rfl).1).mpr (by decide),
   (C3_theorem
      { pathname := "/upload/aapp1/img.png", origin := none, referer := none,
        authHeader := some "Bearer t", contentLength := none, body := [],
        urlOrigin := "https://c" }
      { allowedOrigins := none, maxFileSize := none, uploadAllowedOrigins := none,
        jwtSecrets := some "cfg" }
      "app2/img.png"
      (fun _ =>
        { threeParts := true, payloadDecodes := true,
          payload := { appName := some "app1", exp := some 2000,
                       allowedPaths := some ["app1/*"], maxFileSize := none,
                       allowedExtensions := none },
          headerDecodes := true, headerTyp := "JWT", headerAlg := "HS256",
          sigDecodes := true, sigValid := true })
      (fun _ => some [("app1", "sec")]) 1000
      "Bearer t" "cfg" [("app1", "sec")]
      { appName := some "app1", exp := some 2000,
        allowedPaths := some ["app1/*"], maxFileSize := none,
        allowedExtensions := none }
      ["app1/*"]
      rfl rfl rfl rfl rfl rfl rfl rfl rfl).2 (by decide)⟩

end TinyKit
